import Mathlib

/-!
# Darkfibre SDK — shallow embedding and verification

A shallow embedding of the darkfibre-sdk-ts client library:

* `Darkfibre.bs58Decode` / `Darkfibre.bs58Encode` — the base58 codec used by
  the signer (`bs58` package behaviour, big-integer based).
* `Darkfibre.createKeyPairFromBase58`, `Darkfibre.Signer.*` — the signer
  adapter (`src/core/signer.ts`), with the external `@solana/kit`
  cryptographic primitives abstracted as a `Crypto` parameter record.
* `Darkfibre.interceptResponseError` — the axios response-error interceptor
  of `src/core/http-client.ts`.
* `Darkfibre.TradeService.buy/sell/swap` — the trade pipeline of
  `src/services/trade.service.ts`; the two HTTP POSTs are abstracted as the
  build response and a submit-response function, and each run records the
  ordered trace of externally visible events (HTTP POSTs and signing calls).
* `Darkfibre.register` — the static registration flow of `src/client.ts`.

Numbers crossing the API boundary (amounts, fractions, costs) are modelled
as exact rationals `ℚ`; JavaScript number formatting (`toFixed(2)` and
template-literal stringification) is modelled by `toFixed2` and
`jsNumToString` on exact decimal values.
-/

namespace Darkfibre

/-! ## Base58 codec (behaviour of the `bs58` npm package) -/

/-- The base58 alphabet used by `bs58`. -/
def base58Chars : List Char :=
  "123456789ABCDEFGHJKLMNPQRSTUVWXYZabcdefghijkmnopqrstuvwxyz".toList

/-- Value of one base58 digit, `none` for a character outside the alphabet. -/
def b58DigitValue (c : Char) : Option Nat :=
  base58Chars.findIdx? (· = c)

/-- Minimal big-endian byte representation of a natural number
(first argument is fuel, structurally decreasing so the kernel can reduce it). -/
def natToBytesBEAux : Nat → Nat → List Nat
  | 0, _ => []
  | fuel + 1, n => if n = 0 then [] else natToBytesBEAux fuel (n / 256) ++ [n % 256]

/-- Minimal big-endian byte representation of a natural number. -/
def natToBytesBE (n : Nat) : List Nat := natToBytesBEAux n n

/-- Big-endian base58 digit characters of a natural number (fuelled). -/
def natToB58Aux : Nat → Nat → List Char
  | 0, _ => []
  | fuel + 1, n =>
    if n = 0 then [] else natToB58Aux fuel (n / 58) ++ [base58Chars.getD (n % 58) '1']

/-- `bs58.decode`: leading `'1'` characters become leading zero bytes, the rest
is read as a big-endian base-58 integer; `none` on a character outside the
alphabet (the library throws there). -/
def bs58Decode (s : String) : Option (List Nat) :=
  let cs := s.toList
  if cs.all (fun c => (b58DigitValue c).isSome) then
    let zeros := (cs.takeWhile (· = '1')).length
    let rest := cs.drop zeros
    let n := rest.foldl (fun acc c => acc * 58 + (b58DigitValue c).getD 0) 0
    some (List.replicate zeros 0 ++ natToBytesBE n)
  else
    none

/-- `bs58.encode`: leading zero bytes become `'1'` characters, the rest is
written as a big-endian base-58 integer. -/
def bs58Encode (bytes : List Nat) : String :=
  let zeros := (bytes.takeWhile (· = 0)).length
  let n := bytes.foldl (fun acc b => acc * 256 + b) 0
  String.mk (List.replicate zeros '1' ++ natToB58Aux n n)

/-! ## JavaScript number formatting -/

/-- Two-digit left-zero-padded rendering of a number below 100. -/
def pad2 (n : Nat) : String :=
  if n < 10 then "0" ++ toString n else toString n

/-- JavaScript `Number.prototype.toFixed(2)` on an exact decimal value:
round the magnitude to two fractional digits (half away from zero) and print
with exactly two digits after the point. -/
def toFixed2 (q : ℚ) : String :=
  let n := (Rat.floor (|q| * 100 + 1 / 2)).toNat
  let s := toString (n / 100) ++ "." ++ pad2 (n % 100)
  if q < 0 ∧ n ≠ 0 then "-" ++ s else s

/-- Left-pad a digit string with zeros to length `k`. -/
def padZeros (k : Nat) (s : String) : String :=
  String.mk (List.replicate (k - s.length) '0') ++ s

/-- JavaScript template-literal stringification of a number whose exact value
is a finite decimal: integers print with no point, other finite decimals print
their shortest exact decimal expansion. -/
def jsNumToString (q : ℚ) : String :=
  if q.den = 1 then toString q.num
  else
    match (List.range 31).find? (fun k => (q * (10 : ℚ) ^ k).den == 1) with
    | some k =>
      let m := (|q| * (10 : ℚ) ^ k).num.toNat
      (if q < 0 then "-" else "") ++ toString (m / 10 ^ k) ++ "." ++
        padZeros k (toString (m % 10 ^ k))
    | none => toString q

/-! ## Error taxonomy (`src/errors/`) -/

/-- The three SDK error kinds: `ValidationError` (message, optional field),
`SigningError` (message, optional cause message), `APIError`
(code, message, HTTP status). -/
inductive SdkError where
  | validation (message : String) (field : Option String)
  | signing (message : String) (cause : Option String)
  | api (code : String) (message : String) (status : Nat)
  deriving DecidableEq, Repr

/-! ## HTTP error interceptor (`src/core/http-client.ts`) -/

/-- The structured error body `{error:{code,message}}` of an API error
response. -/
structure APIErrorInfo where
  code : String
  message : String
  deriving DecidableEq, Repr

/-- The axios response attached to a failed request: HTTP status and the
optional structured error body (`error.response?.data?.error`). -/
structure AxiosResp where
  status : Nat
  errorBody : Option APIErrorInfo
  deriving DecidableEq, Repr

/-- The axios error object seen by the response interceptor: transport error
code (e.g. `ECONNABORTED`), message, and the response when one was received. -/
structure AxiosErrorModel where
  code : Option String
  message : String
  response : Option AxiosResp
  deriving DecidableEq, Repr

/-- Outcome of the interceptor: a mapped `APIError`, or the original error
re-raised unchanged. -/
inductive MappedError where
  | api (code : String) (message : String) (status : Nat)
  | reraise (e : AxiosErrorModel)
  deriving DecidableEq, Repr

/-- The response-error interceptor installed in the `HttpClient` constructor:
timeout check first, then structured error body, then missing response, then
re-raise. -/
def interceptResponseError (e : AxiosErrorModel) : MappedError :=
  if e.code = some "ECONNABORTED" ∨ e.code = some "ETIMEDOUT" then
    .api "TIMEOUT" "Request timed out" 408
  else
    match e.response with
    | some r =>
      match r.errorBody with
      | some info => .api info.code info.message r.status
      | none => .reraise e
    | none =>
      .api "NETWORK_ERROR" (if e.message = "" then "Network error occurred" else e.message) 0

/-! ## Trade data model (`src/types/`) -/

/-- Transaction priority level. -/
inductive PriorityLevel where
  | economy | fast | faster | fastest
  deriving DecidableEq, Repr

/-- Swap mode: amount is exact input or exact output. -/
inductive SwapModeKind where
  | exactIn | exactOut
  deriving DecidableEq, Repr

/-- Estimated trade amounts from the build phase. -/
structure TradeEstimates where
  inputAmount : ℚ
  outputAmount : ℚ
  priceImpact : ℚ
  deriving DecidableEq, Repr

/-- Actual trade amounts from a completed transaction. -/
structure TradeAmounts where
  inputAmount : ℚ
  outputAmount : ℚ
  deriving DecidableEq, Repr

/-- `BuyOptions`. -/
structure BuyOptions where
  mint : String
  solAmount : ℚ
  slippage : ℚ
  priority : PriorityLevel
  maxPriceImpact : Option ℚ := none
  maxPriorityCost : Option ℚ := none
  deriving DecidableEq, Repr

/-- `SellOptions`. -/
structure SellOptions where
  mint : String
  tokenAmount : ℚ
  slippage : ℚ
  priority : PriorityLevel
  maxPriceImpact : Option ℚ := none
  maxPriorityCost : Option ℚ := none
  deriving DecidableEq, Repr

/-- `SwapOptions`. -/
structure SwapOptions where
  inputMint : String
  outputMint : String
  amount : ℚ
  swapMode : SwapModeKind
  slippage : ℚ
  priority : PriorityLevel
  maxPriceImpact : Option ℚ := none
  maxPriorityCost : Option ℚ := none
  deriving DecidableEq, Repr

/-- The `data` payload of a build (`/tx/buy`, `/tx/sell`, `/tx/swap`)
response. -/
structure TradeData where
  submissionToken : String
  unsignedTransaction : String
  expiresAt : String
  platform : String
  inputMint : String
  outputMint : String
  estimates : TradeEstimates
  priorityCost : ℚ
  deriving DecidableEq, Repr

/-- The `data` payload of a `/tx/submit` response; `tradeResult` is `none`
when the backend could not parse on-chain amounts. -/
structure SubmitData where
  signature : String
  status : String
  slot : Nat
  platform : String
  inputMint : String
  outputMint : String
  tradeResult : Option TradeAmounts
  priorityCost : ℚ
  deriving DecidableEq, Repr

/-- The client-facing merged transaction result; `tradeResult` is always
present. -/
structure TransactionResult where
  signature : String
  status : String
  slot : Nat
  platform : String
  inputMint : String
  outputMint : String
  tradeResult : TradeAmounts
  priorityCost : ℚ
  deriving DecidableEq, Repr

/-- Request payload for `/tx/submit`. -/
structure SubmitRequest where
  submissionToken : String
  signedTransaction : String
  deriving DecidableEq, Repr

/-- Request payload for `/auth/register`. -/
structure RegisterRequest where
  walletAddress : String
  message : String
  signature : String
  deriving DecidableEq, Repr

/-- The `data` payload of an `/auth/register` response. -/
structure RegisterData where
  apiKey : String
  walletAddress : String
  deriving DecidableEq, Repr

/-! ## Observable events

Each pipeline run records the ordered trace of externally visible actions:
HTTP POSTs (with endpoint path and request body) and signing invocations. -/

/-- Body of an outgoing POST. -/
inductive PostBody where
  | buyBody (o : BuyOptions)
  | sellBody (o : SellOptions)
  | swapBody (o : SwapOptions)
  | submitBody (r : SubmitRequest)
  | registerBody (r : RegisterRequest)
  deriving DecidableEq, Repr

/-- Externally visible event of a pipeline run. -/
inductive Event where
  | post (path : String) (body : PostBody)
  | signCall (unsignedTx : String)
  deriving DecidableEq, Repr

/-- Is this event a signing invocation? -/
def Event.isSignEvent : Event → Bool
  | .signCall _ => true
  | _ => false

/-- Is this event a POST to the submit endpoint? -/
def Event.isSubmitPost : Event → Bool
  | .post p _ => p = "/tx/submit"
  | _ => false

/-! ## Signer adapter (`src/core/signer.ts`)

The `@solana/kit` cryptographic primitives are external capabilities; they are
abstracted as a `Crypto` record of deterministic functions, exactly mirroring
the calls the signer makes. -/

/-- A derived keypair (`CryptoKeyPair`): public and private key material. -/
structure KeyPair where
  publicKey : List Nat
  privateKey : List Nat
  deriving DecidableEq, Repr

/-- The external `@solana/kit` primitives used by the SDK:
`createKeyPairFromBytes` (64-byte keypair), `createKeyPairFromPrivateKeyBytes`
(32-byte private key), `getAddressFromPublicKey`, `signBytes`, and the
decode → `signTransaction` → re-encode sequence for a base64 wire transaction
(modelled as one function returning the signed base64 transaction or a
failure message). -/
structure Crypto where
  keyPairFromBytes : List Nat → KeyPair
  keyPairFromPrivateKeyBytes : List Nat → KeyPair
  getAddressFromPublicKey : List Nat → String
  signBytes : List Nat → List Nat → List Nat
  decodeSignEncodeTx : KeyPair → String → Except String String

/-- UTF-8 bytes of a string (`TextEncoder().encode`). -/
def utf8Bytes (s : String) : List Nat :=
  s.toUTF8.toList.map (·.toNat)

/-- `createKeyPairFromBase58`: decode the base58 secret; 64 bytes go through
`createKeyPairFromBytes`, 32 bytes through `createKeyPairFromPrivateKeyBytes`,
any other length raises a `SigningError` naming the exact byte count; a
decode failure is wrapped as `SigningError`. -/
def createKeyPairFromBase58 (crypto : Crypto) (privateKey : String) :
    Except SdkError KeyPair :=
  match bs58Decode privateKey with
  | none =>
    .error (.signing "Failed to create keypair from private key" none)
  | some keyBytes =>
    if keyBytes.length = 64 then
      .ok (crypto.keyPairFromBytes keyBytes)
    else if keyBytes.length = 32 then
      .ok (crypto.keyPairFromPrivateKeyBytes keyBytes)
    else
      .error (.signing
        ("Invalid private key length: " ++ toString keyBytes.length ++
          " bytes. Expected 32 or 64 bytes.") none)

/-- Mutable state of a `TransactionSigner`: the configured secret and the
lazily cached keypair (`null` until first use). -/
structure SignerState where
  privateKey : String
  signer : Option KeyPair
  deriving DecidableEq, Repr

/-- The `TransactionSigner` constructor: stores the secret, no keypair yet. -/
def SignerState.new (privateKey : String) : SignerState :=
  ⟨privateKey, none⟩

/-- `getSigner`: return the cached keypair, deriving and caching it on first
use. The third component counts key derivations performed by this call. -/
def getSigner (crypto : Crypto) (st : SignerState) :
    Except SdkError KeyPair × SignerState × Nat :=
  match st.signer with
  | some kp => (.ok kp, st, 0)
  | none =>
    match createKeyPairFromBase58 crypto st.privateKey with
    | .ok kp => (.ok kp, ⟨st.privateKey, some kp⟩, 1)
    | .error e => (.error e, st, 1)

/-- `signTransaction`: obtain the signer, then run the external
decode/sign/encode sequence, wrapping its failures as `SigningError`. -/
def signTransactionOp (crypto : Crypto) (st : SignerState) (unsignedTxBase64 : String) :
    Except SdkError String × SignerState × Nat :=
  match getSigner crypto st with
  | (.error e, st', d) => (.error e, st', d)
  | (.ok kp, st', d) =>
    match crypto.decodeSignEncodeTx kp unsignedTxBase64 with
    | .ok signed => (.ok signed, st', d)
    | .error cause => (.error (.signing "Failed to sign transaction" (some cause)), st', d)

/-- `signMessage`: obtain the signer, sign the UTF-8 bytes of the message,
base58-encode the signature. -/
def signMessageOp (crypto : Crypto) (st : SignerState) (message : String) :
    Except SdkError String × SignerState × Nat :=
  match getSigner crypto st with
  | (.error e, st', d) => (.error e, st', d)
  | (.ok kp, st', d) =>
    (.ok (bs58Encode (crypto.signBytes kp.privateKey (utf8Bytes message))), st', d)

/-- `getWalletAddress`: obtain the signer and derive the address from its
public key. -/
def getWalletAddress (crypto : Crypto) (st : SignerState) :
    Except SdkError String × SignerState × Nat :=
  match getSigner crypto st with
  | (.error e, st', d) => (.error e, st', d)
  | (.ok kp, st', d) => (.ok (crypto.getAddressFromPublicKey kp.publicKey), st', d)

/-! ## Trade service (`src/services/trade.service.ts`)

Each trade operation is parameterized by the outcome of its build POST
(`buildResp`), the signer adapter's `signTransaction` as a function
(`signTx`), and the outcome of the submit POST as a function of the submit
request (`submitRespond`) — quantifying over these parameters quantifies over
all transports and signers. A run returns the operation's result together
with the ordered event trace. -/

/-- Message produced by `validatePriceImpact` when the limit is exceeded. -/
def priceImpactMessage (priceImpact maxPriceImpact : ℚ) : String :=
  "Price impact " ++ toFixed2 (priceImpact * 100) ++
    "% exceeds maximum allowed " ++ toFixed2 (maxPriceImpact * 100) ++ "%"

/-- `validatePriceImpact`: throw a `ValidationError` on field
`maxPriceImpact` when the limit is supplied and exceeded. -/
def validatePriceImpact (priceImpact : ℚ) (maxPriceImpact : Option ℚ) :
    Except SdkError Unit :=
  match maxPriceImpact with
  | some mx =>
    if priceImpact > mx then
      .error (.validation (priceImpactMessage priceImpact mx) (some "maxPriceImpact"))
    else
      .ok ()
  | none => .ok ()

/-- Message produced by `validatePriorityCost` when the limit is exceeded. -/
def priorityCostMessage (priorityCost maxPriorityCost : ℚ) : String :=
  "Priority cost " ++ jsNumToString priorityCost ++
    " SOL exceeds maximum allowed " ++ jsNumToString maxPriorityCost ++ " SOL"

/-- `validatePriorityCost`: throw a `ValidationError` on field
`maxPriorityCost` when the limit is supplied and exceeded. -/
def validatePriorityCost (priorityCost : ℚ) (maxPriorityCost : Option ℚ) :
    Except SdkError Unit :=
  match maxPriorityCost with
  | some mx =>
    if priorityCost > mx then
      .error (.validation (priorityCostMessage priorityCost mx) (some "maxPriorityCost"))
    else
      .ok ()
  | none => .ok ()

/-- Merge of a build payload and a submit payload into the returned
`TransactionResult`: `tradeResult ?? {estimates.inputAmount,
estimates.outputAmount}`, `priorityCost` from the build payload. -/
def mergeResult (bd : TradeData) (sd : SubmitData) : TransactionResult :=
  { signature := sd.signature
    status := sd.status
    slot := sd.slot
    platform := sd.platform
    inputMint := sd.inputMint
    outputMint := sd.outputMint
    tradeResult := sd.tradeResult.getD ⟨bd.estimates.inputAmount, bd.estimates.outputAmount⟩
    priorityCost := bd.priorityCost }

/-- `TradeService.buy`: POST `/tx/buy`, validate price impact then priority
cost, sign, POST `/tx/submit`, merge. -/
def TradeService.buy (buildResp : Except SdkError TradeData)
    (signTx : String → Except SdkError String)
    (submitRespond : SubmitRequest → Except SdkError SubmitData)
    (options : BuyOptions) :
    Except SdkError TransactionResult × List Event :=
  let buildEv := Event.post "/tx/buy" (.buyBody options)
  match buildResp with
  | .error e => (.error e, [buildEv])
  | .ok bd =>
    match validatePriceImpact bd.estimates.priceImpact options.maxPriceImpact with
    | .error e => (.error e, [buildEv])
    | .ok _ =>
      match validatePriorityCost bd.priorityCost options.maxPriorityCost with
      | .error e => (.error e, [buildEv])
      | .ok _ =>
        match signTx bd.unsignedTransaction with
        | .error e => (.error e, [buildEv, .signCall bd.unsignedTransaction])
        | .ok signedTransaction =>
          let req : SubmitRequest := ⟨bd.submissionToken, signedTransaction⟩
          let evs := [buildEv, .signCall bd.unsignedTransaction,
            .post "/tx/submit" (.submitBody req)]
          match submitRespond req with
          | .error e => (.error e, evs)
          | .ok sd => (.ok (mergeResult bd sd), evs)

/-- `TradeService.sell`: POST `/tx/sell`, validate price impact then priority
cost, sign, POST `/tx/submit`, merge. -/
def TradeService.sell (buildResp : Except SdkError TradeData)
    (signTx : String → Except SdkError String)
    (submitRespond : SubmitRequest → Except SdkError SubmitData)
    (options : SellOptions) :
    Except SdkError TransactionResult × List Event :=
  let buildEv := Event.post "/tx/sell" (.sellBody options)
  match buildResp with
  | .error e => (.error e, [buildEv])
  | .ok bd =>
    match validatePriceImpact bd.estimates.priceImpact options.maxPriceImpact with
    | .error e => (.error e, [buildEv])
    | .ok _ =>
      match validatePriorityCost bd.priorityCost options.maxPriorityCost with
      | .error e => (.error e, [buildEv])
      | .ok _ =>
        match signTx bd.unsignedTransaction with
        | .error e => (.error e, [buildEv, .signCall bd.unsignedTransaction])
        | .ok signedTransaction =>
          let req : SubmitRequest := ⟨bd.submissionToken, signedTransaction⟩
          let evs := [buildEv, .signCall bd.unsignedTransaction,
            .post "/tx/submit" (.submitBody req)]
          match submitRespond req with
          | .error e => (.error e, evs)
          | .ok sd => (.ok (mergeResult bd sd), evs)

/-- `TradeService.swap`: POST `/tx/swap`, validate price impact then priority
cost, sign, POST `/tx/submit`, merge. -/
def TradeService.swap (buildResp : Except SdkError TradeData)
    (signTx : String → Except SdkError String)
    (submitRespond : SubmitRequest → Except SdkError SubmitData)
    (options : SwapOptions) :
    Except SdkError TransactionResult × List Event :=
  let buildEv := Event.post "/tx/swap" (.swapBody options)
  match buildResp with
  | .error e => (.error e, [buildEv])
  | .ok bd =>
    match validatePriceImpact bd.estimates.priceImpact options.maxPriceImpact with
    | .error e => (.error e, [buildEv])
    | .ok _ =>
      match validatePriorityCost bd.priorityCost options.maxPriorityCost with
      | .error e => (.error e, [buildEv])
      | .ok _ =>
        match signTx bd.unsignedTransaction with
        | .error e => (.error e, [buildEv, .signCall bd.unsignedTransaction])
        | .ok signedTransaction =>
          let req : SubmitRequest := ⟨bd.submissionToken, signedTransaction⟩
          let evs := [buildEv, .signCall bd.unsignedTransaction,
            .post "/tx/submit" (.submitBody req)]
          match submitRespond req with
          | .error e => (.error e, evs)
          | .ok sd => (.ok (mergeResult bd sd), evs)

/-! ## Static registration (`src/client.ts`, `DarkfibreSDK.register`) -/

/-- `DarkfibreSDK.register`: derive keypair and wallet address from the
secret, build the message `"darkfibre:" + Date.now()`, sign its UTF-8 bytes,
base58-encode the signature, POST `{walletAddress, message, signature}` to
`/auth/register` and return the response's data. `timestamp` is the value of
`Date.now()`; `respond` is the outcome of the POST as a function of the
request. The trace records the POSTs performed. -/
def register (crypto : Crypto) (privateKey : String) (timestamp : Nat)
    (respond : RegisterRequest → Except SdkError RegisterData) :
    Except SdkError RegisterData × List Event :=
  match createKeyPairFromBase58 crypto privateKey with
  | .error e => (.error e, [])
  | .ok keyPair =>
    let walletAddress := crypto.getAddressFromPublicKey keyPair.publicKey
    let message := "darkfibre:" ++ toString timestamp
    let signature := bs58Encode (crypto.signBytes keyPair.privateKey (utf8Bytes message))
    let req : RegisterRequest := ⟨walletAddress, message, signature⟩
    match respond req with
    | .error e => (.error e, [.post "/auth/register" (.registerBody req)])
    | .ok rd => (.ok rd, [.post "/auth/register" (.registerBody req)])

/-! ## Helper observations and concrete sample data -/

/-- Field of the `ValidationError` carried by a failed trade result, `none`
for successes and for other error kinds. -/
def resultValidationField : Except SdkError TransactionResult × List Event → Option String
  | (.error (.validation _ (some f)), _) => some f
  | _ => none

/-- The register request constructed by `register` for a given derived
keypair and timestamp. -/
def registerRequestFor (crypto : Crypto) (kp : KeyPair) (timestamp : Nat) :
    RegisterRequest :=
  ⟨crypto.getAddressFromPublicKey kp.publicKey,
   "darkfibre:" ++ toString timestamp,
   bs58Encode (crypto.signBytes kp.privateKey
     (utf8Bytes ("darkfibre:" ++ toString timestamp)))⟩

/-- Concrete stand-in for the external `@solana/kit` primitives, used to
evaluate the pipeline at concrete inputs. -/
def sampleCrypto : Crypto where
  keyPairFromBytes := fun b => ⟨b.drop 32, b.take 32⟩
  keyPairFromPrivateKeyBytes := fun b => ⟨b.map (fun x => (x + 7) % 256), b⟩
  getAddressFromPublicKey := fun pub => bs58Encode pub
  signBytes := fun _ msg => msg
  decodeSignEncodeTx := fun _ tx => .ok ("signed64:" ++ tx)

/-- A 32-byte base58 secret (32 leading `'1'` characters decode to 32 zero
bytes). -/
def sampleSecret32 : String := "11111111111111111111111111111111"

/-- A 16-byte base58 secret — an invalid length. -/
def sampleSecret16 : String := "1111111111111111"

/-- Concrete build-phase estimates: price impact 0.00346 (0.35%). -/
def sampleEstimates : TradeEstimates :=
  ⟨1000, 2000, (346 : ℚ) / 100000⟩

/-- Concrete build payload with priority cost 0.005 SOL. -/
def sampleTradeData : TradeData :=
  ⟨"token-1", "unsigned-tx", "2026-01-01T00:00:00Z", "pump_fun", "SOL", "MINT",
   sampleEstimates, (5 : ℚ) / 1000⟩

/-- Concrete submit payload; carries its own (different) priority cost
0.007 SOL, and the given trade result. -/
def sampleSubmitData (tr : Option TradeAmounts) : SubmitData :=
  ⟨"sig-1", "confirmed", 42, "pump_fun", "SOL", "MINT", tr, (7 : ℚ) / 1000⟩

/-- A signer that always succeeds. -/
def sampleSignTx : String → Except SdkError String :=
  fun tx => .ok ("signed:" ++ tx)

/-- A submit endpoint that always answers with `sampleSubmitData tr`. -/
def sampleSubmitRespond (tr : Option TradeAmounts) :
    SubmitRequest → Except SdkError SubmitData :=
  fun _ => .ok (sampleSubmitData tr)

/-- Buy options with no limits. -/
def sampleBuyOptions : BuyOptions :=
  ⟨"MINT", (2 : ℚ) / 1000, (5 : ℚ) / 100, .fast, none, none⟩

/-- Sell options with no limits. -/
def sampleSellOptions : SellOptions :=
  ⟨"MINT", 100, (5 : ℚ) / 100, .fast, none, none⟩

/-- Swap options with no limits. -/
def sampleSwapOptions : SwapOptions :=
  ⟨"SOL", "MINT", (2 : ℚ) / 1000, .exactIn, (5 : ℚ) / 100, .fast, none, none⟩

/-- A register endpoint that always answers with a fixed payload. -/
def sampleRegisterRespond : RegisterRequest → Except SdkError RegisterData :=
  fun _ => .ok ⟨"api-key-1", "wallet-1"⟩

/-- The keypair `sampleCrypto` derives from the 32-byte sample secret. -/
def sampleKeyPair32 : KeyPair :=
  sampleCrypto.keyPairFromPrivateKeyBytes (List.replicate 32 0)

/-- Buy options whose price-impact limit (0.00001) is below the sample
estimate. -/
def impactLimitedBuyOptions : BuyOptions :=
  ⟨"MINT", (2 : ℚ) / 1000, (5 : ℚ) / 100, .fast, some ((1 : ℚ) / 100000), none⟩

/-- Sell options with the same tight price-impact limit. -/
def impactLimitedSellOptions : SellOptions :=
  ⟨"MINT", 100, (5 : ℚ) / 100, .fast, some ((1 : ℚ) / 100000), none⟩

/-- Swap options with the same tight price-impact limit. -/
def impactLimitedSwapOptions : SwapOptions :=
  ⟨"SOL", "MINT", (2 : ℚ) / 1000, .exactIn, (5 : ℚ) / 100, .fast,
   some ((1 : ℚ) / 100000), none⟩

/-- Buy options whose priority-cost limit (0.001 SOL) is below the sample
build priority cost, with no price-impact limit. -/
def costLimitedBuyOptions : BuyOptions :=
  ⟨"MINT", (2 : ℚ) / 1000, (5 : ℚ) / 100, .fast, none, some ((1 : ℚ) / 1000)⟩

/-- Sell options with the same tight priority-cost limit. -/
def costLimitedSellOptions : SellOptions :=
  ⟨"MINT", 100, (5 : ℚ) / 100, .fast, none, some ((1 : ℚ) / 1000)⟩

/-- Swap options with the same tight priority-cost limit. -/
def costLimitedSwapOptions : SwapOptions :=
  ⟨"SOL", "MINT", (2 : ℚ) / 1000, .exactIn, (5 : ℚ) / 100, .fast, none,
   some ((1 : ℚ) / 1000)⟩

/-- Buy options violating both limits at once. -/
def bothLimitsBuyOptions : BuyOptions :=
  ⟨"MINT", (2 : ℚ) / 1000, (5 : ℚ) / 100, .fast, some ((1 : ℚ) / 100000),
   some ((1 : ℚ) / 1000)⟩

/-- The trade pipeline shared by `buy`, `sell` and `swap`, parameterized by
the build event and the two limit options; each operation's body is
definitionally this pipeline applied to its endpoint, payload and limits. -/
def tradePipeline (buildEv : Event) (buildResp : Except SdkError TradeData)
    (signTx : String → Except SdkError String)
    (submitRespond : SubmitRequest → Except SdkError SubmitData)
    (maxPriceImpact maxPriorityCost : Option ℚ) :
    Except SdkError TransactionResult × List Event :=
  match buildResp with
  | .error e => (.error e, [buildEv])
  | .ok bd =>
    match validatePriceImpact bd.estimates.priceImpact maxPriceImpact with
    | .error e => (.error e, [buildEv])
    | .ok _ =>
      match validatePriorityCost bd.priorityCost maxPriorityCost with
      | .error e => (.error e, [buildEv])
      | .ok _ =>
        match signTx bd.unsignedTransaction with
        | .error e => (.error e, [buildEv, .signCall bd.unsignedTransaction])
        | .ok signedTransaction =>
          let req : SubmitRequest := ⟨bd.submissionToken, signedTransaction⟩
          let evs := [buildEv, .signCall bd.unsignedTransaction,
            .post "/tx/submit" (.submitBody req)]
          match submitRespond req with
          | .error e => (.error e, evs)
          | .ok sd => (.ok (mergeResult bd sd), evs)

end Darkfibre

namespace Darkfibre

/-! ## Shared pipeline lemmas -/

/-- `buy` is the shared pipeline at `/tx/buy` with the buy payload. -/
theorem buy_eq_tradePipeline (br : Except SdkError TradeData)
    (signTx : String → Except SdkError String)
    (submitRespond : SubmitRequest → Except SdkError SubmitData) (o : BuyOptions) :
    TradeService.buy br signTx submitRespond o =
      tradePipeline (.post "/tx/buy" (.buyBody o)) br signTx submitRespond
        o.maxPriceImpact o.maxPriorityCost := rfl

/-- `sell` is the shared pipeline at `/tx/sell` with the sell payload. -/
theorem sell_eq_tradePipeline (br : Except SdkError TradeData)
    (signTx : String → Except SdkError String)
    (submitRespond : SubmitRequest → Except SdkError SubmitData) (o : SellOptions) :
    TradeService.sell br signTx submitRespond o =
      tradePipeline (.post "/tx/sell" (.sellBody o)) br signTx submitRespond
        o.maxPriceImpact o.maxPriorityCost := rfl

/-- `swap` is the shared pipeline at `/tx/swap` with the swap payload. -/
theorem swap_eq_tradePipeline (br : Except SdkError TradeData)
    (signTx : String → Except SdkError String)
    (submitRespond : SubmitRequest → Except SdkError SubmitData) (o : SwapOptions) :
    TradeService.swap br signTx submitRespond o =
      tradePipeline (.post "/tx/swap" (.swapBody o)) br signTx submitRespond
        o.maxPriceImpact o.maxPriorityCost := rfl

/-- A successful pipeline run is the merge of the build payload with the
submit payload the transport returned for the signed transaction. -/
theorem tradePipeline_ok {ev : Event} {bd : TradeData}
    {signTx : String → Except SdkError String}
    {submitRespond : SubmitRequest → Except SdkError SubmitData}
    {mpi mpc : Option ℚ} {res : TransactionResult}
    (h : (tradePipeline ev (.ok bd) signTx submitRespond mpi mpc).1 = .ok res) :
    ∃ stx sd, signTx bd.unsignedTransaction = .ok stx ∧
      submitRespond ⟨bd.submissionToken, stx⟩ = .ok sd ∧ res = mergeResult bd sd := by
  unfold tradePipeline at h
  cases hv1 : validatePriceImpact bd.estimates.priceImpact mpi with
  | error e => simp only [hv1] at h; exact Except.noConfusion h
  | ok u =>
    cases hv2 : validatePriorityCost bd.priorityCost mpc with
    | error e => simp only [hv1, hv2] at h; exact Except.noConfusion h
    | ok u' =>
      cases hsig : signTx bd.unsignedTransaction with
      | error e => simp only [hv1, hv2, hsig] at h; exact Except.noConfusion h
      | ok stx =>
        cases hsub : submitRespond ⟨bd.submissionToken, stx⟩ with
        | error e => simp only [hv1, hv2, hsig, hsub] at h; exact Except.noConfusion h
        | ok sd =>
          simp only [hv1, hv2, hsig, hsub, Except.ok.injEq] at h
          exact ⟨stx, sd, rfl, hsub, h.symm⟩

/-- When all four stages succeed, the pipeline returns the merged result and
records exactly build POST, signing call, submit POST, in that order. -/
theorem tradePipeline_success {ev : Event} {bd : TradeData}
    {signTx : String → Except SdkError String}
    {submitRespond : SubmitRequest → Except SdkError SubmitData}
    {mpi mpc : Option ℚ} {stx : String} {sd : SubmitData}
    (hv1 : validatePriceImpact bd.estimates.priceImpact mpi = .ok ())
    (hv2 : validatePriorityCost bd.priorityCost mpc = .ok ())
    (hsig : signTx bd.unsignedTransaction = .ok stx)
    (hsub : submitRespond ⟨bd.submissionToken, stx⟩ = .ok sd) :
    tradePipeline ev (.ok bd) signTx submitRespond mpi mpc =
      (.ok (mergeResult bd sd),
       [ev, .signCall bd.unsignedTransaction,
        .post "/tx/submit" (.submitBody ⟨bd.submissionToken, stx⟩)]) := by
  unfold tradePipeline
  simp only [hv1, hv2, hsig, hsub]

/-- When the price-impact limit is supplied and exceeded, the pipeline stops
after the build POST with the `maxPriceImpact` validation error. -/
theorem tradePipeline_priceImpact_fail {ev : Event} {bd : TradeData}
    {signTx : String → Except SdkError String}
    {submitRespond : SubmitRequest → Except SdkError SubmitData}
    {mpc : Option ℚ} {mx : ℚ}
    (h : bd.estimates.priceImpact > mx) :
    tradePipeline ev (.ok bd) signTx submitRespond (some mx) mpc =
      (.error (.validation (priceImpactMessage bd.estimates.priceImpact mx)
        (some "maxPriceImpact")), [ev]) := by
  unfold tradePipeline validatePriceImpact
  simp only [if_pos h]

/-- When the price-impact check passes and the priority-cost limit is
supplied and exceeded, the pipeline stops after the build POST with the
`maxPriorityCost` validation error. -/
theorem tradePipeline_priorityCost_fail {ev : Event} {bd : TradeData}
    {signTx : String → Except SdkError String}
    {submitRespond : SubmitRequest → Except SdkError SubmitData}
    {mpi : Option ℚ} {mx : ℚ}
    (hv1 : validatePriceImpact bd.estimates.priceImpact mpi = .ok ())
    (h : bd.priorityCost > mx) :
    tradePipeline ev (.ok bd) signTx submitRespond mpi (some mx) =
      (.error (.validation (priorityCostMessage bd.priorityCost mx)
        (some "maxPriorityCost")), [ev]) := by
  unfold tradePipeline
  simp only [hv1]
  unfold validatePriorityCost
  simp only [if_pos h]

/-! ## Claim theorems -/

/-- Claim C1: for every successful buy, sell or swap call, the
`priorityCost` of the returned `TransactionResult` equals the build-phase
`priorityCost` (the value validated against `maxPriorityCost`); the submit
payload's own `priorityCost` never reaches the result. -/
theorem trade_priorityCost_from_build_phase (bd : TradeData)
    (signTx : String → Except SdkError String)
    (submitRespond : SubmitRequest → Except SdkError SubmitData) :
    (∀ (o : BuyOptions) (res : TransactionResult),
      (TradeService.buy (.ok bd) signTx submitRespond o).1 = .ok res →
      res.priorityCost = bd.priorityCost) ∧
    (∀ (o : SellOptions) (res : TransactionResult),
      (TradeService.sell (.ok bd) signTx submitRespond o).1 = .ok res →
      res.priorityCost = bd.priorityCost) ∧
    (∀ (o : SwapOptions) (res : TransactionResult),
      (TradeService.swap (.ok bd) signTx submitRespond o).1 = .ok res →
      res.priorityCost = bd.priorityCost) := by
  refine ⟨fun o res h => ?_, fun o res h => ?_, fun o res h => ?_⟩
  · rw [buy_eq_tradePipeline] at h
    obtain ⟨stx, sd, -, -, hres⟩ := tradePipeline_ok h
    rw [hres]; rfl
  · rw [sell_eq_tradePipeline] at h
    obtain ⟨stx, sd, -, -, hres⟩ := tradePipeline_ok h
    rw [hres]; rfl
  · rw [swap_eq_tradePipeline] at h
    obtain ⟨stx, sd, -, -, hres⟩ := tradePipeline_ok h
    rw [hres]; rfl

/-- Witness for C1: a concrete successful buy whose submit payload carries a
different `priorityCost` (0.007) than the build payload (0.005); the result
keeps the build value. -/
theorem trade_priorityCost_from_build_phase_witness :
    (TradeService.buy (.ok sampleTradeData) sampleSignTx (sampleSubmitRespond none)
        sampleBuyOptions).1 = .ok (mergeResult sampleTradeData (sampleSubmitData none)) ∧
    (mergeResult sampleTradeData (sampleSubmitData none)).priorityCost =
      sampleTradeData.priorityCost ∧
    sampleTradeData.priorityCost ≠ (sampleSubmitData none).priorityCost := by
  have hrun : (TradeService.buy (.ok sampleTradeData) sampleSignTx
      (sampleSubmitRespond none) sampleBuyOptions).1 =
      .ok (mergeResult sampleTradeData (sampleSubmitData none)) := rfl
  refine ⟨hrun, (trade_priorityCost_from_build_phase sampleTradeData sampleSignTx
    (sampleSubmitRespond none)).1 sampleBuyOptions _ hrun, ?_⟩
  norm_num [sampleTradeData, sampleSubmitData, sampleEstimates]

/-- Claim C2: whenever the caller supplied `maxPriceImpact` and the build
estimate exceeds it, each trade operation fails with a `ValidationError` on
field `maxPriceImpact` whose message renders both percentages with
`toFixed(2)`; the trace stops at the build POST, so nothing is signed and no
submit POST is made. -/
theorem trade_maxPriceImpact_validation (bd : TradeData)
    (signTx : String → Except SdkError String)
    (submitRespond : SubmitRequest → Except SdkError SubmitData) (mx : ℚ)
    (hgt : bd.estimates.priceImpact > mx) :
    (∀ o : BuyOptions, o.maxPriceImpact = some mx →
      TradeService.buy (.ok bd) signTx submitRespond o =
        (.error (.validation
          ("Price impact " ++ toFixed2 (bd.estimates.priceImpact * 100) ++
            "% exceeds maximum allowed " ++ toFixed2 (mx * 100) ++ "%")
          (some "maxPriceImpact")),
         [.post "/tx/buy" (.buyBody o)]) ∧
      ((TradeService.buy (.ok bd) signTx submitRespond o).2.all
        (fun e => !e.isSignEvent && !e.isSubmitPost)) = true) ∧
    (∀ o : SellOptions, o.maxPriceImpact = some mx →
      TradeService.sell (.ok bd) signTx submitRespond o =
        (.error (.validation
          ("Price impact " ++ toFixed2 (bd.estimates.priceImpact * 100) ++
            "% exceeds maximum allowed " ++ toFixed2 (mx * 100) ++ "%")
          (some "maxPriceImpact")),
         [.post "/tx/sell" (.sellBody o)]) ∧
      ((TradeService.sell (.ok bd) signTx submitRespond o).2.all
        (fun e => !e.isSignEvent && !e.isSubmitPost)) = true) ∧
    (∀ o : SwapOptions, o.maxPriceImpact = some mx →
      TradeService.swap (.ok bd) signTx submitRespond o =
        (.error (.validation
          ("Price impact " ++ toFixed2 (bd.estimates.priceImpact * 100) ++
            "% exceeds maximum allowed " ++ toFixed2 (mx * 100) ++ "%")
          (some "maxPriceImpact")),
         [.post "/tx/swap" (.swapBody o)]) ∧
      ((TradeService.swap (.ok bd) signTx submitRespond o).2.all
        (fun e => !e.isSignEvent && !e.isSubmitPost)) = true) := by
  refine ⟨fun o ho => ⟨?_, ?_⟩, fun o ho => ⟨?_, ?_⟩, fun o ho => ⟨?_, ?_⟩⟩
  · rw [buy_eq_tradePipeline, ho, tradePipeline_priceImpact_fail hgt]; rfl
  · rw [buy_eq_tradePipeline, ho, tradePipeline_priceImpact_fail hgt]
    simp [Event.isSignEvent, Event.isSubmitPost]
  · rw [sell_eq_tradePipeline, ho, tradePipeline_priceImpact_fail hgt]; rfl
  · rw [sell_eq_tradePipeline, ho, tradePipeline_priceImpact_fail hgt]
    simp [Event.isSignEvent, Event.isSubmitPost]
  · rw [swap_eq_tradePipeline, ho, tradePipeline_priceImpact_fail hgt]; rfl
  · rw [swap_eq_tradePipeline, ho, tradePipeline_priceImpact_fail hgt]
    simp [Event.isSignEvent, Event.isSubmitPost]

/-- Witness for C2: with the sample build estimate (price impact 0.00346)
and limit 0.00001, buy, sell and swap each stop at the build POST with the
`maxPriceImpact` validation error. -/
theorem trade_maxPriceImpact_validation_witness :
    TradeService.buy (.ok sampleTradeData) sampleSignTx (sampleSubmitRespond none)
      impactLimitedBuyOptions =
      (.error (.validation
        ("Price impact " ++ toFixed2 (sampleTradeData.estimates.priceImpact * 100) ++
          "% exceeds maximum allowed " ++ toFixed2 (((1 : ℚ) / 100000) * 100) ++ "%")
        (some "maxPriceImpact")),
       [.post "/tx/buy" (.buyBody impactLimitedBuyOptions)]) ∧
    TradeService.sell (.ok sampleTradeData) sampleSignTx (sampleSubmitRespond none)
      impactLimitedSellOptions =
      (.error (.validation
        ("Price impact " ++ toFixed2 (sampleTradeData.estimates.priceImpact * 100) ++
          "% exceeds maximum allowed " ++ toFixed2 (((1 : ℚ) / 100000) * 100) ++ "%")
        (some "maxPriceImpact")),
       [.post "/tx/sell" (.sellBody impactLimitedSellOptions)]) ∧
    TradeService.swap (.ok sampleTradeData) sampleSignTx (sampleSubmitRespond none)
      impactLimitedSwapOptions =
      (.error (.validation
        ("Price impact " ++ toFixed2 (sampleTradeData.estimates.priceImpact * 100) ++
          "% exceeds maximum allowed " ++ toFixed2 (((1 : ℚ) / 100000) * 100) ++ "%")
        (some "maxPriceImpact")),
       [.post "/tx/swap" (.swapBody impactLimitedSwapOptions)]) := by
  have hgt : sampleTradeData.estimates.priceImpact > (1 : ℚ) / 100000 := by
    norm_num [sampleTradeData, sampleEstimates]
  have h := trade_maxPriceImpact_validation sampleTradeData sampleSignTx
    (sampleSubmitRespond none) ((1 : ℚ) / 100000) hgt
  exact ⟨(h.1 impactLimitedBuyOptions rfl).1, (h.2.1 impactLimitedSellOptions rfl).1,
    (h.2.2 impactLimitedSwapOptions rfl).1⟩

/-- Claim C10: when both caller-supplied limits are violated at once, every
trade operation surfaces the `maxPriceImpact` validation error — the
price-impact check runs before the priority-cost check. -/
theorem both_limits_priceImpact_first (bd : TradeData)
    (signTx : String → Except SdkError String)
    (submitRespond : SubmitRequest → Except SdkError SubmitData) (mpi mpc : ℚ)
    (h1 : bd.estimates.priceImpact > mpi) (_h2 : bd.priorityCost > mpc) :
    (∀ o : BuyOptions, o.maxPriceImpact = some mpi → o.maxPriorityCost = some mpc →
      (TradeService.buy (.ok bd) signTx submitRespond o).1 =
        .error (.validation (priceImpactMessage bd.estimates.priceImpact mpi)
          (some "maxPriceImpact"))) ∧
    (∀ o : SellOptions, o.maxPriceImpact = some mpi → o.maxPriorityCost = some mpc →
      (TradeService.sell (.ok bd) signTx submitRespond o).1 =
        .error (.validation (priceImpactMessage bd.estimates.priceImpact mpi)
          (some "maxPriceImpact"))) ∧
    (∀ o : SwapOptions, o.maxPriceImpact = some mpi → o.maxPriorityCost = some mpc →
      (TradeService.swap (.ok bd) signTx submitRespond o).1 =
        .error (.validation (priceImpactMessage bd.estimates.priceImpact mpi)
          (some "maxPriceImpact"))) := by
  refine ⟨fun o ho _ => ?_, fun o ho _ => ?_, fun o ho _ => ?_⟩
  · rw [buy_eq_tradePipeline, ho, tradePipeline_priceImpact_fail h1]
  · rw [sell_eq_tradePipeline, ho, tradePipeline_priceImpact_fail h1]
  · rw [swap_eq_tradePipeline, ho, tradePipeline_priceImpact_fail h1]

/-- Witness for C10: the sample build payload violates both limits of
`bothLimitsBuyOptions` (0.00346 > 0.00001 and 0.005 > 0.001); the surfaced
error is on field `maxPriceImpact`. -/
theorem both_limits_priceImpact_first_witness :
    (TradeService.buy (.ok sampleTradeData) sampleSignTx (sampleSubmitRespond none)
        bothLimitsBuyOptions).1 =
      .error (.validation
        (priceImpactMessage sampleTradeData.estimates.priceImpact ((1 : ℚ) / 100000))
        (some "maxPriceImpact")) := by
  have h1 : sampleTradeData.estimates.priceImpact > (1 : ℚ) / 100000 := by
    norm_num [sampleTradeData, sampleEstimates]
  have h2 : sampleTradeData.priorityCost > (1 : ℚ) / 1000 := by
    norm_num [sampleTradeData]
  exact (both_limits_priceImpact_first sampleTradeData sampleSignTx
    (sampleSubmitRespond none) ((1 : ℚ) / 100000) ((1 : ℚ) / 1000) h1 h2).1
    bothLimitsBuyOptions rfl rfl

/-- Claim C3 counterexample: a buy whose priority-cost limit is supplied and
exceeded (0.005 > 0.001) but whose price-impact limit is also exceeded fails
on field `maxPriceImpact`, not `maxPriorityCost` — so the claim does not hold
for every call with an exceeded priority-cost limit. -/
theorem trade_maxPriorityCost_counterexample :
    bothLimitsBuyOptions.maxPriorityCost = some ((1 : ℚ) / 1000) ∧
    sampleTradeData.priorityCost > (1 : ℚ) / 1000 ∧
    resultValidationField
      (TradeService.buy (.ok sampleTradeData) sampleSignTx (sampleSubmitRespond none)
        bothLimitsBuyOptions) = some "maxPriceImpact" ∧
    "maxPriceImpact" ≠ "maxPriorityCost" := by
  have hgt : sampleTradeData.estimates.priceImpact > (1 : ℚ) / 100000 := by
    norm_num [sampleTradeData, sampleEstimates]
  have hrun : TradeService.buy (.ok sampleTradeData) sampleSignTx
      (sampleSubmitRespond none) bothLimitsBuyOptions =
      (.error (.validation
        (priceImpactMessage sampleTradeData.estimates.priceImpact ((1 : ℚ) / 100000))
        (some "maxPriceImpact")),
       [.post "/tx/buy" (.buyBody bothLimitsBuyOptions)]) := by
    rw [buy_eq_tradePipeline]
    exact tradePipeline_priceImpact_fail hgt
  refine ⟨rfl, by norm_num [sampleTradeData], ?_, by decide⟩
  rw [hrun]
  rfl

/-- Claim C3 (amended): whenever the caller supplied `maxPriorityCost`, the
build `priorityCost` exceeds it, and the price-impact validation passes
(`maxPriceImpact` absent or not exceeded), each trade operation fails with a
`ValidationError` on field `maxPriorityCost` whose message states both costs
in SOL (plain numbers, no percentage); the trace stops at the build POST, so
nothing is signed and no submit POST is made. -/
theorem trade_maxPriorityCost_validation (bd : TradeData)
    (signTx : String → Except SdkError String)
    (submitRespond : SubmitRequest → Except SdkError SubmitData) (mx : ℚ)
    (hgt : bd.priorityCost > mx) :
    (∀ o : BuyOptions, o.maxPriorityCost = some mx →
      validatePriceImpact bd.estimates.priceImpact o.maxPriceImpact = .ok () →
      TradeService.buy (.ok bd) signTx submitRespond o =
        (.error (.validation
          ("Priority cost " ++ jsNumToString bd.priorityCost ++
            " SOL exceeds maximum allowed " ++ jsNumToString mx ++ " SOL")
          (some "maxPriorityCost")),
         [.post "/tx/buy" (.buyBody o)]) ∧
      ((TradeService.buy (.ok bd) signTx submitRespond o).2.all
        (fun e => !e.isSignEvent && !e.isSubmitPost)) = true) ∧
    (∀ o : SellOptions, o.maxPriorityCost = some mx →
      validatePriceImpact bd.estimates.priceImpact o.maxPriceImpact = .ok () →
      TradeService.sell (.ok bd) signTx submitRespond o =
        (.error (.validation
          ("Priority cost " ++ jsNumToString bd.priorityCost ++
            " SOL exceeds maximum allowed " ++ jsNumToString mx ++ " SOL")
          (some "maxPriorityCost")),
         [.post "/tx/sell" (.sellBody o)]) ∧
      ((TradeService.sell (.ok bd) signTx submitRespond o).2.all
        (fun e => !e.isSignEvent && !e.isSubmitPost)) = true) ∧
    (∀ o : SwapOptions, o.maxPriorityCost = some mx →
      validatePriceImpact bd.estimates.priceImpact o.maxPriceImpact = .ok () →
      TradeService.swap (.ok bd) signTx submitRespond o =
        (.error (.validation
          ("Priority cost " ++ jsNumToString bd.priorityCost ++
            " SOL exceeds maximum allowed " ++ jsNumToString mx ++ " SOL")
          (some "maxPriorityCost")),
         [.post "/tx/swap" (.swapBody o)]) ∧
      ((TradeService.swap (.ok bd) signTx submitRespond o).2.all
        (fun e => !e.isSignEvent && !e.isSubmitPost)) = true) := by
  refine ⟨fun o ho hv1 => ⟨?_, ?_⟩, fun o ho hv1 => ⟨?_, ?_⟩, fun o ho hv1 => ⟨?_, ?_⟩⟩
  · rw [buy_eq_tradePipeline, ho, tradePipeline_priorityCost_fail hv1 hgt]; rfl
  · rw [buy_eq_tradePipeline, ho, tradePipeline_priorityCost_fail hv1 hgt]
    simp [Event.isSignEvent, Event.isSubmitPost]
  · rw [sell_eq_tradePipeline, ho, tradePipeline_priorityCost_fail hv1 hgt]; rfl
  · rw [sell_eq_tradePipeline, ho, tradePipeline_priorityCost_fail hv1 hgt]
    simp [Event.isSignEvent, Event.isSubmitPost]
  · rw [swap_eq_tradePipeline, ho, tradePipeline_priorityCost_fail hv1 hgt]; rfl
  · rw [swap_eq_tradePipeline, ho, tradePipeline_priorityCost_fail hv1 hgt]
    simp [Event.isSignEvent, Event.isSubmitPost]

/-- Witness for the amended C3: with build priority cost 0.005 SOL and limit
0.001 SOL (and no price-impact limit), buy, sell and swap each stop at the
build POST with the `maxPriorityCost` validation error. -/
theorem trade_maxPriorityCost_validation_witness :
    TradeService.buy (.ok sampleTradeData) sampleSignTx (sampleSubmitRespond none)
      costLimitedBuyOptions =
      (.error (.validation
        ("Priority cost " ++ jsNumToString sampleTradeData.priorityCost ++
          " SOL exceeds maximum allowed " ++ jsNumToString ((1 : ℚ) / 1000) ++ " SOL")
        (some "maxPriorityCost")),
       [.post "/tx/buy" (.buyBody costLimitedBuyOptions)]) ∧
    TradeService.sell (.ok sampleTradeData) sampleSignTx (sampleSubmitRespond none)
      costLimitedSellOptions =
      (.error (.validation
        ("Priority cost " ++ jsNumToString sampleTradeData.priorityCost ++
          " SOL exceeds maximum allowed " ++ jsNumToString ((1 : ℚ) / 1000) ++ " SOL")
        (some "maxPriorityCost")),
       [.post "/tx/sell" (.sellBody costLimitedSellOptions)]) ∧
    TradeService.swap (.ok sampleTradeData) sampleSignTx (sampleSubmitRespond none)
      costLimitedSwapOptions =
      (.error (.validation
        ("Priority cost " ++ jsNumToString sampleTradeData.priorityCost ++
          " SOL exceeds maximum allowed " ++ jsNumToString ((1 : ℚ) / 1000) ++ " SOL")
        (some "maxPriorityCost")),
       [.post "/tx/swap" (.swapBody costLimitedSwapOptions)]) := by
  have hgt : sampleTradeData.priorityCost > (1 : ℚ) / 1000 := by
    norm_num [sampleTradeData]
  have h := trade_maxPriorityCost_validation sampleTradeData sampleSignTx
    (sampleSubmitRespond none) ((1 : ℚ) / 1000) hgt
  exact ⟨(h.1 costLimitedBuyOptions rfl rfl).1, (h.2.1 costLimitedSellOptions rfl rfl).1,
    (h.2.2 costLimitedSwapOptions rfl rfl).1⟩

/-- Claim C4: for every successful trade call, the returned `tradeResult` is
the submit payload's `tradeResult` when present and otherwise exactly the
build estimates' `{inputAmount, outputAmount}`; either way it is present
(the merged field is non-optional). -/
theorem trade_tradeResult_merge (bd : TradeData) (sd : SubmitData)
    (signTx : String → Except SdkError String) (stx : String)
    (submitRespond : SubmitRequest → Except SdkError SubmitData)
    (hsig : signTx bd.unsignedTransaction = .ok stx)
    (hsub : submitRespond ⟨bd.submissionToken, stx⟩ = .ok sd) :
    (∀ o : BuyOptions,
      validatePriceImpact bd.estimates.priceImpact o.maxPriceImpact = .ok () →
      validatePriorityCost bd.priorityCost o.maxPriorityCost = .ok () →
      (TradeService.buy (.ok bd) signTx submitRespond o).1 = .ok (mergeResult bd sd)) ∧
    (∀ o : SellOptions,
      validatePriceImpact bd.estimates.priceImpact o.maxPriceImpact = .ok () →
      validatePriorityCost bd.priorityCost o.maxPriorityCost = .ok () →
      (TradeService.sell (.ok bd) signTx submitRespond o).1 = .ok (mergeResult bd sd)) ∧
    (∀ o : SwapOptions,
      validatePriceImpact bd.estimates.priceImpact o.maxPriceImpact = .ok () →
      validatePriorityCost bd.priorityCost o.maxPriorityCost = .ok () →
      (TradeService.swap (.ok bd) signTx submitRespond o).1 = .ok (mergeResult bd sd)) ∧
    (sd.tradeResult = none →
      (mergeResult bd sd).tradeResult =
        ⟨bd.estimates.inputAmount, bd.estimates.outputAmount⟩) ∧
    (∀ t, sd.tradeResult = some t → (mergeResult bd sd).tradeResult = t) := by
  refine ⟨fun o hv1 hv2 => ?_, fun o hv1 hv2 => ?_, fun o hv1 hv2 => ?_,
    fun hnone => ?_, fun t hsome => ?_⟩
  · rw [buy_eq_tradePipeline, tradePipeline_success hv1 hv2 hsig hsub]
  · rw [sell_eq_tradePipeline, tradePipeline_success hv1 hv2 hsig hsub]
  · rw [swap_eq_tradePipeline, tradePipeline_success hv1 hv2 hsig hsub]
  · simp [mergeResult, hnone]
  · simp [mergeResult, hsome]

/-- Witness for C4: the concrete successful buy with a `null` submit
`tradeResult` returns exactly the build estimates' amount pair; with a
present one it returns that pair unchanged. -/
theorem trade_tradeResult_merge_witness :
    (TradeService.buy (.ok sampleTradeData) sampleSignTx (sampleSubmitRespond none)
        sampleBuyOptions).1 = .ok (mergeResult sampleTradeData (sampleSubmitData none)) ∧
    (mergeResult sampleTradeData (sampleSubmitData none)).tradeResult =
      ⟨sampleTradeData.estimates.inputAmount, sampleTradeData.estimates.outputAmount⟩ ∧
    (mergeResult sampleTradeData (sampleSubmitData (some ⟨11, 22⟩))).tradeResult =
      ⟨11, 22⟩ := by
  have h := trade_tradeResult_merge sampleTradeData (sampleSubmitData none) sampleSignTx
    ("signed:" ++ sampleTradeData.unsignedTransaction) (sampleSubmitRespond none)
    rfl rfl
  have h' := trade_tradeResult_merge sampleTradeData (sampleSubmitData (some ⟨11, 22⟩))
    sampleSignTx ("signed:" ++ sampleTradeData.unsignedTransaction)
    (sampleSubmitRespond (some ⟨11, 22⟩)) rfl rfl
  exact ⟨h.1 sampleBuyOptions rfl rfl, h.2.2.2.1 rfl, h'.2.2.2.2 ⟨11, 22⟩ rfl⟩

/-- The pipeline depends on the build event only as the head of its trace:
swapping the event leaves the result and the trace tail unchanged. -/
theorem tradePipeline_ev_swap (ev1 ev2 : Event) (br : Except SdkError TradeData)
    (signTx : String → Except SdkError String)
    (submitRespond : SubmitRequest → Except SdkError SubmitData)
    (mpi mpc : Option ℚ) :
    tradePipeline ev2 br signTx submitRespond mpi mpc =
      ((tradePipeline ev1 br signTx submitRespond mpi mpc).1,
       ev2 :: (tradePipeline ev1 br signTx submitRespond mpi mpc).2.tail) := by
  cases br with
  | error e => rfl
  | ok bd =>
    cases hv1 : validatePriceImpact bd.estimates.priceImpact mpi with
    | error e => simp [tradePipeline, hv1]
    | ok u =>
      cases hv2 : validatePriorityCost bd.priorityCost mpc with
      | error e => simp [tradePipeline, hv1, hv2]
      | ok u' =>
        cases hsig : signTx bd.unsignedTransaction with
        | error e => simp [tradePipeline, hv1, hv2, hsig]
        | ok stx =>
          cases hsub : submitRespond ⟨bd.submissionToken, stx⟩ with
          | error e => simp [tradePipeline, hv1, hv2, hsig, hsub]
          | ok sd => simp [tradePipeline, hv1, hv2, hsig, hsub]

/-- Claim C9: buy, sell and swap run the identical pipeline, differing only
in the build endpoint and payload: for equal build and submit responses and
equal limit options the three return equal results, the trace heads are the
respective build POSTs, and the trace tails (signing and submit POST, or
nothing) coincide. -/
theorem trade_ops_shared_pipeline (buildResp : Except SdkError TradeData)
    (signTx : String → Except SdkError String)
    (submitRespond : SubmitRequest → Except SdkError SubmitData)
    (b : BuyOptions) (s : SellOptions) (w : SwapOptions)
    (hpi1 : b.maxPriceImpact = s.maxPriceImpact)
    (hpi2 : s.maxPriceImpact = w.maxPriceImpact)
    (hpc1 : b.maxPriorityCost = s.maxPriorityCost)
    (hpc2 : s.maxPriorityCost = w.maxPriorityCost) :
    ((TradeService.buy buildResp signTx submitRespond b).1 =
      (TradeService.sell buildResp signTx submitRespond s).1) ∧
    ((TradeService.sell buildResp signTx submitRespond s).1 =
      (TradeService.swap buildResp signTx submitRespond w).1) ∧
    ((TradeService.buy buildResp signTx submitRespond b).2.head? =
      some (.post "/tx/buy" (.buyBody b))) ∧
    ((TradeService.sell buildResp signTx submitRespond s).2.head? =
      some (.post "/tx/sell" (.sellBody s))) ∧
    ((TradeService.swap buildResp signTx submitRespond w).2.head? =
      some (.post "/tx/swap" (.swapBody w))) ∧
    ((TradeService.buy buildResp signTx submitRespond b).2.tail =
      (TradeService.sell buildResp signTx submitRespond s).2.tail) ∧
    ((TradeService.sell buildResp signTx submitRespond s).2.tail =
      (TradeService.swap buildResp signTx submitRespond w).2.tail) := by
  rw [buy_eq_tradePipeline, sell_eq_tradePipeline, swap_eq_tradePipeline,
    ← hpi1, ← hpi2, ← hpc1, ← hpc2, ← hpi1, ← hpc1]
  rw [tradePipeline_ev_swap (.post "/tx/buy" (.buyBody b)) (.post "/tx/sell" (.sellBody s))
    buildResp signTx submitRespond b.maxPriceImpact b.maxPriorityCost,
    tradePipeline_ev_swap (.post "/tx/buy" (.buyBody b)) (.post "/tx/swap" (.swapBody w))
    buildResp signTx submitRespond b.maxPriceImpact b.maxPriorityCost]
  refine ⟨rfl, rfl, ?_, rfl, rfl, rfl, rfl⟩
  rw [tradePipeline_ev_swap (.post "/tx/buy" (.buyBody b)) (.post "/tx/buy" (.buyBody b))
    buildResp signTx submitRespond b.maxPriceImpact b.maxPriorityCost]
  rfl

/-- Witness for C9: with the sample responses and the no-limit sample
options, buy, sell and swap all return the same merged result. -/
theorem trade_ops_shared_pipeline_witness :
    ((TradeService.buy (.ok sampleTradeData) sampleSignTx (sampleSubmitRespond none)
        sampleBuyOptions).1 =
      (TradeService.sell (.ok sampleTradeData) sampleSignTx (sampleSubmitRespond none)
        sampleSellOptions).1) ∧
    ((TradeService.sell (.ok sampleTradeData) sampleSignTx (sampleSubmitRespond none)
        sampleSellOptions).1 =
      (TradeService.swap (.ok sampleTradeData) sampleSignTx (sampleSubmitRespond none)
        sampleSwapOptions).1) := by
  have h := trade_ops_shared_pipeline (.ok sampleTradeData) sampleSignTx
    (sampleSubmitRespond none) sampleBuyOptions sampleSellOptions sampleSwapOptions
    rfl rfl rfl rfl
  exact ⟨h.1, h.2.1⟩

/-- Claim C5: the transport error mapping applies, in order: timeout/aborted
→ `APIError('TIMEOUT', _, 408)`; structured error body → `APIError` with the
body's code and message and the response's HTTP status; no response →
`APIError('NETWORK_ERROR', _, 0)`; anything else is re-raised unchanged. -/
theorem httpClient_error_mapping_order (e : AxiosErrorModel) :
    ((e.code = some "ECONNABORTED" ∨ e.code = some "ETIMEDOUT") →
      interceptResponseError e = .api "TIMEOUT" "Request timed out" 408) ∧
    (¬(e.code = some "ECONNABORTED" ∨ e.code = some "ETIMEDOUT") →
      ∀ r i, e.response = some r → r.errorBody = some i →
        interceptResponseError e = .api i.code i.message r.status) ∧
    (¬(e.code = some "ECONNABORTED" ∨ e.code = some "ETIMEDOUT") →
      e.response = none →
      interceptResponseError e = .api "NETWORK_ERROR"
        (if e.message = "" then "Network error occurred" else e.message) 0) ∧
    (¬(e.code = some "ECONNABORTED" ∨ e.code = some "ETIMEDOUT") →
      ∀ r, e.response = some r → r.errorBody = none →
        interceptResponseError e = .reraise e) := by
  refine ⟨fun h => ?_, fun h r i hr hb => ?_, fun h hr => ?_, fun h r hr hb => ?_⟩
  · simp only [interceptResponseError, if_pos h]
  · simp only [interceptResponseError, if_neg h, hr, hb]
  · simp only [interceptResponseError, if_neg h, hr]
  · simp only [interceptResponseError, if_neg h, hr, hb]

/-- Witness for C5: one concrete error of each of the four kinds, mapped as
the ordered policy prescribes. -/
theorem httpClient_error_mapping_order_witness :
    interceptResponseError ⟨some "ECONNABORTED", "m", none⟩ =
      .api "TIMEOUT" "Request timed out" 408 ∧
    interceptResponseError ⟨none, "boom", some ⟨401, some ⟨"UNAUTHORIZED", "denied"⟩⟩⟩ =
      .api "UNAUTHORIZED" "denied" 401 ∧
    interceptResponseError ⟨none, "conn reset", none⟩ =
      .api "NETWORK_ERROR" "conn reset" 0 ∧
    interceptResponseError ⟨none, "odd", some ⟨500, none⟩⟩ =
      .reraise ⟨none, "odd", some ⟨500, none⟩⟩ := by
  refine ⟨(httpClient_error_mapping_order _).1 (Or.inl rfl),
    (httpClient_error_mapping_order _).2.1 (by simp) _ _ rfl rfl, ?_,
    (httpClient_error_mapping_order _).2.2.2 (by simp) _ rfl rfl⟩
  have h3 := (httpClient_error_mapping_order ⟨none, "conn reset", none⟩).2.2.1
    (by simp) rfl
  simpa using h3

/-- Claim C6: a base58 secret decoding to a byte length other than 32 or 64
makes key derivation fail with a `SigningError` stating the exact byte
count, and makes registration fail with that same error before any network
call (its trace is empty). -/
theorem invalid_key_length_rejection (crypto : Crypto) (s : String) (bytes : List Nat)
    (ts : Nat) (respond : RegisterRequest → Except SdkError RegisterData)
    (hdec : bs58Decode s = some bytes) (h32 : bytes.length ≠ 32)
    (h64 : bytes.length ≠ 64) :
    createKeyPairFromBase58 crypto s =
      .error (.signing ("Invalid private key length: " ++ toString bytes.length ++
        " bytes. Expected 32 or 64 bytes.") none) ∧
    register crypto s ts respond =
      (.error (.signing ("Invalid private key length: " ++ toString bytes.length ++
        " bytes. Expected 32 or 64 bytes.") none), []) := by
  have hk : createKeyPairFromBase58 crypto s =
      .error (.signing ("Invalid private key length: " ++ toString bytes.length ++
        " bytes. Expected 32 or 64 bytes.") none) := by
    simp only [createKeyPairFromBase58, hdec, if_neg h64, if_neg h32]
  exact ⟨hk, by simp only [register, hk]⟩

/-- Witness for C6: the 16-byte sample secret is rejected with the message
"Invalid private key length: 16 bytes. Expected 32 or 64 bytes." and
registration performs no POST. -/
theorem invalid_key_length_rejection_witness :
    createKeyPairFromBase58 sampleCrypto sampleSecret16 =
      .error (.signing ("Invalid private key length: " ++
        toString (List.replicate 16 (0 : Nat)).length ++
        " bytes. Expected 32 or 64 bytes.") none) ∧
    register sampleCrypto sampleSecret16 1700000000000 sampleRegisterRespond =
      (.error (.signing ("Invalid private key length: " ++
        toString (List.replicate 16 (0 : Nat)).length ++
        " bytes. Expected 32 or 64 bytes.") none), []) ∧
    ("Invalid private key length: " ++ toString (List.replicate 16 (0 : Nat)).length ++
      " bytes. Expected 32 or 64 bytes.") =
      "Invalid private key length: 16 bytes. Expected 32 or 64 bytes." := by
  have h := invalid_key_length_rejection sampleCrypto sampleSecret16
    (List.replicate 16 0) 1700000000000 sampleRegisterRespond (by decide) (by decide)
    (by decide)
  exact ⟨h.1, h.2, by decide⟩

/-- Claim C7: on a freshly constructed signer, the first `getWalletAddress`
performs exactly one key derivation; a second `getWalletAddress` returns the
identical address with zero derivations and leaves the state unchanged, and
every other signer operation on the cached state also performs zero
derivations. -/
theorem signer_key_derivation_idempotent (crypto : Crypto) (pk a1 : String)
    (st1 : SignerState) (d1 : Nat)
    (h : getWalletAddress crypto (SignerState.new pk) = (.ok a1, st1, d1)) :
    d1 = 1 ∧
    getWalletAddress crypto st1 = (.ok a1, st1, 0) ∧
    (∀ m, (signMessageOp crypto st1 m).2 = (st1, 0)) ∧
    (∀ tx, (signTransactionOp crypto st1 tx).2 = (st1, 0)) := by
  cases hkp : createKeyPairFromBase58 crypto pk with
  | error e => simp [getWalletAddress, getSigner, SignerState.new, hkp] at h
  | ok kp =>
    simp only [getWalletAddress, getSigner, SignerState.new, hkp, Prod.mk.injEq,
      Except.ok.injEq] at h
    obtain ⟨ha, hst, hd⟩ := h
    subst ha
    subst hst
    subst hd
    refine ⟨rfl, ?_, fun m => ?_, fun tx => ?_⟩
    · simp [getWalletAddress, getSigner]
    · simp [signMessageOp, getSigner]
    · simp only [signTransactionOp, getSigner]
      cases crypto.decodeSignEncodeTx kp tx <;> simp

/-- Witness for C7: on the cached state produced by the first call with the
sample crypto and 32-byte secret, a second `getWalletAddress` returns the
same address with zero derivations, as does `signMessage`. -/
theorem signer_key_derivation_idempotent_witness :
    getWalletAddress sampleCrypto ⟨sampleSecret32, some sampleKeyPair32⟩ =
      (.ok (sampleCrypto.getAddressFromPublicKey sampleKeyPair32.publicKey),
       ⟨sampleSecret32, some sampleKeyPair32⟩, 0) ∧
    (signMessageOp sampleCrypto ⟨sampleSecret32, some sampleKeyPair32⟩ "hello").2 =
      (⟨sampleSecret32, some sampleKeyPair32⟩, 0) := by
  have h := signer_key_derivation_idempotent sampleCrypto sampleSecret32
    (sampleCrypto.getAddressFromPublicKey sampleKeyPair32.publicKey)
    ⟨sampleSecret32, some sampleKeyPair32⟩ 1 (by rfl)
  exact ⟨h.2.1, h.2.2.1 "hello"⟩

/-- Claim C8: registration with a valid secret derives the keypair and
address, signs the message `"darkfibre:" + timestamp`, POSTs exactly
`{walletAddress, message, signature}` to `/auth/register`, and returns the
response's `{apiKey, walletAddress}` payload. -/
theorem register_flow_correct (crypto : Crypto) (pk : String) (ts : Nat)
    (respond : RegisterRequest → Except SdkError RegisterData) (kp : KeyPair)
    (rd : RegisterData)
    (hkp : createKeyPairFromBase58 crypto pk = .ok kp)
    (hresp : respond (registerRequestFor crypto kp ts) = .ok rd) :
    register crypto pk ts respond =
      (.ok rd, [.post "/auth/register" (.registerBody (registerRequestFor crypto kp ts))]) ∧
    (registerRequestFor crypto kp ts).message = "darkfibre:" ++ toString ts ∧
    (registerRequestFor crypto kp ts).walletAddress =
      crypto.getAddressFromPublicKey kp.publicKey ∧
    (registerRequestFor crypto kp ts).signature =
      bs58Encode (crypto.signBytes kp.privateKey
        (utf8Bytes ("darkfibre:" ++ toString ts))) := by
  refine ⟨?_, rfl, rfl, rfl⟩
  have hr : respond ⟨crypto.getAddressFromPublicKey kp.publicKey,
      "darkfibre:" ++ toString ts,
      bs58Encode (crypto.signBytes kp.privateKey
        (utf8Bytes ("darkfibre:" ++ toString ts)))⟩ = .ok rd := hresp
  simp only [register, hkp, hr]
  rfl

/-- Witness for C8: concrete registration with the sample crypto, 32-byte
secret and constant register endpoint returns the endpoint's payload and
POSTs exactly the constructed request. -/
theorem register_flow_correct_witness :
    register sampleCrypto sampleSecret32 1700000000000 sampleRegisterRespond =
      (.ok ⟨"api-key-1", "wallet-1"⟩,
       [.post "/auth/register"
         (.registerBody (registerRequestFor sampleCrypto sampleKeyPair32 1700000000000))]) := by
  exact (register_flow_correct sampleCrypto sampleSecret32 1700000000000
    sampleRegisterRespond sampleKeyPair32 ⟨"api-key-1", "wallet-1"⟩ (by rfl) rfl).1

end Darkfibre
